import Mathlib

/-!
Shallow embedding of `src/Ethernet.cpp` (BloomyEthernet `EthernetClass`).

The Interface Manager touches three external collaborators: the SPI bus
guard (`beginTransaction`/`endTransaction`), the W5100 chip driver
(`_w5100.*`), and the DHCP lease negotiator (`_dhcp->*`).  We model each
call into a collaborator as an event appended to a trace, and the chip
registers plus the manager's own fields (`_dnsServerAddress`, `_dhcp`) as
explicit state.  Responses of the collaborators (chip-init success, the
DHCP begin result, the lease-check code, the negotiated addresses) are
inputs drawn from an environment record, so every theorem quantifies over
all possible collaborator behaviours.
-/

/-- Arduino `IPAddress`: four raw octets, indexed 0..3 by `operator[]`. -/
structure IPAddress where
  b0 : Nat
  b1 : Nat
  b2 : Nat
  b3 : Nat
deriving DecidableEq, Repr

/-- The write `a[3] = v` on an `IPAddress`: replace the fourth octet. -/
def IPAddress.setOctet3 (a : IPAddress) (v : Nat) : IPAddress :=
  { a with b3 := v }

/-- A MAC address buffer (`uint8_t *mac`), passed through untouched. -/
abbrev Mac := List Nat

/-- The W5100 chip's registers that `Ethernet.cpp` reads and writes,
plus the retransmission tuning registers. -/
structure ChipRegs where
  mac : Mac
  ip : IPAddress
  gateway : IPAddress
  subnet : IPAddress
  rtr : Nat
  rcr : Nat
deriving DecidableEq, Repr

/-- One observable call into a collaborator, in program order. -/
inductive Ev where
  | beginTransaction
  | endTransaction
  | init (ok : Bool)
  | setMACAddress (mac : Mac)
  | setIPAddress (a : IPAddress)
  | setGatewayIp (a : IPAddress)
  | setSubnetMask (a : IPAddress)
  | getMACAddress
  | getIPAddress
  | getGatewayIp
  | getSubnetMask
  | setRetransmissionTime (v : Nat)
  | setRetransmissionCount (n : Nat)
  | dhcpCreate
  | beginWithDHCP
  | checkLease
  | socketPortRand
deriving DecidableEq, Repr

/-- A chip-driver call (anything addressed to `_w5100` other than `init`,
which runs before any bus bracketing). -/
def Ev.isChipCall : Ev → Bool
  | .setMACAddress _ => true
  | .setIPAddress _ => true
  | .setGatewayIp _ => true
  | .setSubnetMask _ => true
  | .getMACAddress => true
  | .getIPAddress => true
  | .getGatewayIp => true
  | .getSubnetMask => true
  | .setRetransmissionTime _ => true
  | .setRetransmissionCount _ => true
  | _ => false

/-- A chip register write. -/
def Ev.isChipWrite : Ev → Bool
  | .setMACAddress _ => true
  | .setIPAddress _ => true
  | .setGatewayIp _ => true
  | .setSubnetMask _ => true
  | .setRetransmissionTime _ => true
  | .setRetransmissionCount _ => true
  | _ => false

/-- A bus acquisition (`_spibus.beginTransaction`). -/
def Ev.isAcquire : Ev → Bool
  | .beginTransaction => true
  | _ => false

/-- The fields of `EthernetClass` visible in `Ethernet.cpp`, plus the chip
registers the manager programs.  `dhcp = some i` models `_dhcp` pointing
at the negotiator instance with identity `i`; `nextDhcpId` numbers
instances so that reuse versus recreation is observable. -/
structure EthernetState where
  dnsServerAddress : IPAddress
  dhcp : Option Nat
  nextDhcpId : Nat
  chip : ChipRegs
deriving DecidableEq, Repr

/-- Responses of the external collaborators for one call: whether
`_w5100.init()` succeeds, what `_dhcp->beginWithDHCP` returns, what
`_dhcp->checkLease()` returns, and the negotiator's current address set. -/
structure Env where
  initOk : Bool
  dhcpBeginRet : Int
  leaseRc : Int
  dhcpLocalIp : IPAddress
  dhcpGatewayIp : IPAddress
  dhcpSubnetMask : IPAddress
  dhcpDnsServerIp : IPAddress
deriving DecidableEq, Repr

/-- Result of one manager call: the new state, the trace of collaborator
calls made, and the returned value. -/
structure OpResult (α : Type) where
  state : EthernetState
  trace : List Ev
  ret : α
deriving Repr

/-- Modelled from the spec: the lease-check codes live in `Dhcp.h` (the
Lease Negotiator's header, which is not under `src/`).  The spec names the
outcomes {no-lease, renew-failed, renewed, rebind-failed, rebound}; the
values below are distinct integers standing for those named codes. -/
def DHCP_CHECK_NONE : Int := 0

/-- Modelled from the spec: renew-failed lease-check code (see
`DHCP_CHECK_NONE`). -/
def DHCP_CHECK_RENEW_FAIL : Int := 1

/-- Modelled from the spec: renewed lease-check code (see
`DHCP_CHECK_NONE`). -/
def DHCP_CHECK_RENEW_OK : Int := 2

/-- Modelled from the spec: rebind-failed lease-check code (see
`DHCP_CHECK_NONE`). -/
def DHCP_CHECK_REBIND_FAIL : Int := 3

/-- Modelled from the spec: rebound lease-check code (see
`DHCP_CHECK_NONE`). -/
def DHCP_CHECK_REBIND_OK : Int := 4

/-- `EthernetHardwareStatus` from the header: the variants returned by
`hardwareStatus()`. -/
inductive EthernetHardwareStatus where
  | EthernetNoHardware
  | EthernetW5100
  | EthernetW5200
  | EthernetW5500
deriving DecidableEq, Repr

namespace EthernetClass

/-- `EthernetClass::hardwareStatus()` (Ethernet.cpp lines 132-140): switch
on the numeric code `_w5100.getChip()` returns.  The source cases are the
decimal literals `51`, `52`, `55`. -/
def hardwareStatus (chipCode : Nat) : EthernetHardwareStatus :=
  if chipCode = 51 then .EthernetW5100
  else if chipCode = 52 then .EthernetW5200
  else if chipCode = 55 then .EthernetW5500
  else .EthernetNoHardware

/-- `EthernetClass::begin(uint8_t *mac, unsigned long timeout, unsigned
long responseTimeout)` (lines 42-69), the DHCP bring-up.  First the lease
negotiator is created if `_dhcp` is null; then `_w5100.init()` — failure
returns 0 at once; then the MAC and a zero IP are written under one bus
transaction; then the call delegates to `_dhcp->beginWithDHCP` with the
bus released; on result 1 the negotiated local/gateway/subnet addresses
are published under a fresh transaction, the DNS address is cached, and
the port randomizer is seeded. -/
def beginDHCP (env : Env) (mac : Mac) (s : EthernetState) : OpResult Int :=
  let createT : List Ev := if s.dhcp.isSome then [] else [Ev.dhcpCreate]
  let s1 : EthernetState :=
    if s.dhcp.isSome then s
    else { s with dhcp := some s.nextDhcpId, nextDhcpId := s.nextDhcpId + 1 }
  if env.initOk = false then
    { state := s1, trace := createT ++ [Ev.init false], ret := 0 }
  else
    let s2 : EthernetState :=
      { s1 with chip := { s1.chip with mac := mac, ip := ⟨0, 0, 0, 0⟩ } }
    let t2 : List Ev :=
      createT ++ [Ev.init true, Ev.beginTransaction, Ev.setMACAddress mac,
        Ev.setIPAddress ⟨0, 0, 0, 0⟩, Ev.endTransaction, Ev.beginWithDHCP]
    if env.dhcpBeginRet = 1 then
      { state :=
          { s2 with
            chip := { s2.chip with
                      ip := env.dhcpLocalIp
                      gateway := env.dhcpGatewayIp
                      subnet := env.dhcpSubnetMask }
            dnsServerAddress := env.dhcpDnsServerIp }
        trace := t2 ++ [Ev.beginTransaction, Ev.setIPAddress env.dhcpLocalIp,
          Ev.setGatewayIp env.dhcpGatewayIp, Ev.setSubnetMask env.dhcpSubnetMask,
          Ev.endTransaction, Ev.socketPortRand]
        ret := env.dhcpBeginRet }
    else
      { state := s2, trace := t2, ret := env.dhcpBeginRet }

/-- `EthernetClass::begin(mac, ip, dns, gateway, subnet)` (lines 95-115),
the fully explicit static bring-up: on chip-init failure it returns with
no effect; otherwise it writes MAC, IP, gateway and subnet under one bus
transaction and caches the DNS address. -/
def beginStatic5 (env : Env) (mac : Mac) (ip dns gateway subnet : IPAddress)
    (s : EthernetState) : OpResult Unit :=
  if env.initOk = false then
    { state := s, trace := [Ev.init false], ret := () }
  else
    { state :=
        { s with
          chip := { s.chip with
                    mac := mac
                    ip := ip
                    gateway := gateway
                    subnet := subnet }
          dnsServerAddress := dns }
      trace := [Ev.init true, Ev.beginTransaction, Ev.setMACAddress mac,
        Ev.setIPAddress ip, Ev.setGatewayIp gateway, Ev.setSubnetMask subnet,
        Ev.endTransaction]
      ret := () }

/-- `EthernetClass::begin(mac, ip, dns, gateway)` (lines 89-93): defaults
the subnet to 255.255.255.0 and delegates. -/
def beginStatic4 (env : Env) (mac : Mac) (ip dns gateway : IPAddress)
    (s : EthernetState) : OpResult Unit :=
  beginStatic5 env mac ip dns gateway ⟨255, 255, 255, 0⟩ s

/-- `EthernetClass::begin(mac, ip, dns)` (lines 80-87): defaults the
gateway to the local address with its final octet set to 1 and
delegates. -/
def beginStatic3 (env : Env) (mac : Mac) (ip dns : IPAddress)
    (s : EthernetState) : OpResult Unit :=
  beginStatic4 env mac ip dns (ip.setOctet3 1) s

/-- `EthernetClass::begin(mac, ip)` (lines 71-78): defaults the DNS server
to the local address with its final octet set to 1 and delegates. -/
def beginStatic2 (env : Env) (mac : Mac) (ip : IPAddress)
    (s : EthernetState) : OpResult Unit :=
  beginStatic3 env mac ip (ip.setOctet3 1) s

/-- `EthernetClass::maintain()` (lines 142-168): with no negotiator it
returns `DHCP_CHECK_NONE` untouched; otherwise it calls
`_dhcp->checkLease()` and, exactly on the renew-ok / rebind-ok codes,
republishes the negotiator's address set under one bus transaction and
refreshes the cached DNS address, finally returning the code unchanged. -/
def maintain (env : Env) (s : EthernetState) : OpResult Int :=
  match s.dhcp with
  | none => { state := s, trace := [], ret := DHCP_CHECK_NONE }
  | some _ =>
    let rc := env.leaseRc
    if rc = DHCP_CHECK_RENEW_OK ∨ rc = DHCP_CHECK_REBIND_OK then
      { state :=
          { s with
            chip := { s.chip with
                      ip := env.dhcpLocalIp
                      gateway := env.dhcpGatewayIp
                      subnet := env.dhcpSubnetMask }
            dnsServerAddress := env.dhcpDnsServerIp }
        trace := [Ev.checkLease, Ev.beginTransaction,
          Ev.setIPAddress env.dhcpLocalIp, Ev.setGatewayIp env.dhcpGatewayIp,
          Ev.setSubnetMask env.dhcpSubnetMask, Ev.endTransaction]
        ret := rc }
    else
      { state := s, trace := [Ev.checkLease], ret := rc }

/-- `EthernetClass::MACAddress(uint8_t*)` (lines 171-176). -/
def MACAddress (s : EthernetState) : OpResult Mac :=
  { state := s
    trace := [Ev.beginTransaction, Ev.getMACAddress, Ev.endTransaction]
    ret := s.chip.mac }

/-- `EthernetClass::localIP()` (lines 178-185). -/
def localIP (s : EthernetState) : OpResult IPAddress :=
  { state := s
    trace := [Ev.beginTransaction, Ev.getIPAddress, Ev.endTransaction]
    ret := s.chip.ip }

/-- `EthernetClass::subnetMask()` (lines 187-194). -/
def subnetMask (s : EthernetState) : OpResult IPAddress :=
  { state := s
    trace := [Ev.beginTransaction, Ev.getSubnetMask, Ev.endTransaction]
    ret := s.chip.subnet }

/-- `EthernetClass::gatewayIP()` (lines 196-203). -/
def gatewayIP (s : EthernetState) : OpResult IPAddress :=
  { state := s
    trace := [Ev.beginTransaction, Ev.getGatewayIp, Ev.endTransaction]
    ret := s.chip.gateway }

/-- `EthernetClass::setMACAddress(const uint8_t*)` (lines 205-210). -/
def setMACAddress (mac : Mac) (s : EthernetState) : OpResult Unit :=
  { state := { s with chip := { s.chip with mac := mac } }
    trace := [Ev.beginTransaction, Ev.setMACAddress mac, Ev.endTransaction]
    ret := () }

/-- `EthernetClass::setLocalIP(const IPAddress)` (lines 212-218). -/
def setLocalIP (local_ip : IPAddress) (s : EthernetState) : OpResult Unit :=
  { state := { s with chip := { s.chip with ip := local_ip } }
    trace := [Ev.beginTransaction, Ev.setIPAddress local_ip, Ev.endTransaction]
    ret := () }

/-- `EthernetClass::setSubnetMask(const IPAddress)` (lines 220-226). -/
def setSubnetMask (subnet : IPAddress) (s : EthernetState) : OpResult Unit :=
  { state := { s with chip := { s.chip with subnet := subnet } }
    trace := [Ev.beginTransaction, Ev.setSubnetMask subnet, Ev.endTransaction]
    ret := () }

/-- `EthernetClass::setGatewayIP(const IPAddress)` (lines 228-234). -/
def setGatewayIP (gateway : IPAddress) (s : EthernetState) : OpResult Unit :=
  { state := { s with chip := { s.chip with gateway := gateway } }
    trace := [Ev.beginTransaction, Ev.setGatewayIp gateway, Ev.endTransaction]
    ret := () }

/-- `EthernetClass::setRetransmissionTimeout(uint16_t)` (lines 236-242):
clamps the argument to 6553, then writes ten times the clamped value; the
`% 65536` is the `uint16_t` conversion at the chip-driver boundary. -/
def setRetransmissionTimeout (milliseconds : Nat) (s : EthernetState) :
    OpResult Unit :=
  let ms := if milliseconds > 6553 then 6553 else milliseconds
  let v := ms * 10 % 65536
  { state := { s with chip := { s.chip with rtr := v } }
    trace := [Ev.beginTransaction, Ev.setRetransmissionTime v,
      Ev.endTransaction]
    ret := () }

/-- `EthernetClass::setRetransmissionCount(uint8_t)` (lines 244-249). -/
def setRetransmissionCount (num : Nat) (s : EthernetState) : OpResult Unit :=
  { state := { s with chip := { s.chip with rcr := num } }
    trace := [Ev.beginTransaction, Ev.setRetransmissionCount num,
      Ev.endTransaction]
    ret := () }

end EthernetClass

/-- Within one call's trace: `true` iff every `endTransaction` closes an
open `beginTransaction` and the bus is not held when the call returns,
starting from `d` open acquisitions. -/
def busDepthOk (d : Nat) : List Ev → Bool
  | [] => d == 0
  | Ev.beginTransaction :: t => busDepthOk (d + 1) t
  | Ev.endTransaction :: t =>
    match d with
    | 0 => false
    | d + 1 => busDepthOk d t
  | _ :: t => busDepthOk d t

/-- `true` iff every delegation to `_dhcp->beginWithDHCP` in the trace
happens with zero open bus acquisitions, starting from `d` open ones. -/
def noBusHeldAtDhcp (d : Nat) : List Ev → Bool
  | [] => true
  | Ev.beginTransaction :: t => noBusHeldAtDhcp (d + 1) t
  | Ev.endTransaction :: t => noBusHeldAtDhcp (d - 1) t
  | Ev.beginWithDHCP :: t => d == 0 && noBusHeldAtDhcp d t
  | _ :: t => noBusHeldAtDhcp d t

/-- The tail of a single-transaction trace: chip-driver calls closed by
the final `endTransaction`. -/
def txnTail : List Ev → Bool
  | [Ev.endTransaction] => true
  | e :: t => e.isChipCall && txnTail t
  | [] => false

/-- `true` iff the trace is exactly one `beginTransaction`, then only
chip-driver calls, then one closing `endTransaction`. -/
def isSingleTxnTrace : List Ev → Bool
  | Ev.beginTransaction :: t => txnTail t
  | _ => false

/-- Sample static address 192.168.1.50 (spec §8 scenario). -/
def ipSample : IPAddress := ⟨192, 168, 1, 50⟩

/-- Chip registers at power-on, for concrete witnesses. -/
def chip0 : ChipRegs := ⟨[], ⟨0, 0, 0, 0⟩, ⟨0, 0, 0, 0⟩, ⟨0, 0, 0, 0⟩, 0, 0⟩

/-- A freshly constructed manager: zero DNS cache, no negotiator. -/
def st0 : EthernetState := ⟨⟨0, 0, 0, 0⟩, none, 0, chip0⟩

/-- A manager whose negotiator (identity 0) already exists. -/
def stDhcp : EthernetState := { st0 with dhcp := some 0, nextDhcpId := 1 }

/-- Collaborators that succeed: chip init ok, DHCP begin result 1, lease
check renewed, lease {10.0.0.5, 10.0.0.1, 255.255.255.0, dns 8.8.8.8}. -/
def envRenew : Env :=
  ⟨true, 1, DHCP_CHECK_RENEW_OK, ⟨10, 0, 0, 5⟩, ⟨10, 0, 0, 1⟩,
    ⟨255, 255, 255, 0⟩, ⟨8, 8, 8, 8⟩⟩

/-- Collaborators whose chip initialization fails. -/
def envInitFail : Env := { envRenew with initOk := false }

/-- Claim C1 (counterexample): at the concrete identity code 0x51 (= 81)
the code returns `EthernetNoHardware`, not variant-A (`EthernetW5100`) as
the claim states: the source switches on the decimal literal 51, not on
0x51. -/
theorem hardwareStatus_hex_code_refuted :
    EthernetClass.hardwareStatus 0x51 = EthernetHardwareStatus.EthernetNoHardware ∧
    EthernetClass.hardwareStatus 0x51 ≠ EthernetHardwareStatus.EthernetW5100 := by
  constructor
  · rfl
  · decide

/-- Claim C1 (amended): `hardwareStatus()` returns variant-A
(`EthernetW5100`) for the decimal identity code 51, variant-B
(`EthernetW5200`) for 52, variant-C (`EthernetW5500`) for 55, and
`EthernetNoHardware` for every other code. -/
theorem hardwareStatus_decimal_codes :
    EthernetClass.hardwareStatus 51 = EthernetHardwareStatus.EthernetW5100 ∧
    EthernetClass.hardwareStatus 52 = EthernetHardwareStatus.EthernetW5200 ∧
    EthernetClass.hardwareStatus 55 = EthernetHardwareStatus.EthernetW5500 ∧
    ∀ c : Nat, c ≠ 51 → c ≠ 52 → c ≠ 55 →
      EthernetClass.hardwareStatus c = EthernetHardwareStatus.EthernetNoHardware := by
  refine ⟨rfl, rfl, rfl, ?_⟩
  intro c h1 h2 h3
  simp [EthernetClass.hardwareStatus, h1, h2, h3]

/-- Witness for `hardwareStatus_decimal_codes`: the default branch at the
concrete out-of-range code 81 (= 0x51). -/
theorem hardwareStatus_decimal_codes_witness :
    EthernetClass.hardwareStatus 81 = EthernetHardwareStatus.EthernetNoHardware :=
  hardwareStatus_decimal_codes.2.2.2 81 (by decide) (by decide) (by decide)

/-- Ten times the clamped argument fits in the chip's 16-bit register, so
the `uint16_t` conversion at the driver boundary is the identity. -/
theorem rtr_clamp_eq (ms : Nat) :
    (if ms > 6553 then 6553 else ms) * 10 % 65536 = min ms 6553 * 10 := by
  split_ifs with h <;> omega

/-- Claim C2: `begin(mac, ip)` resolves the omitted dns as `ip` with its
fourth octet set to 1 and delegates; `begin(mac, ip, dns)` resolves the
omitted gateway the same way; `begin(mac, ip, dns, gateway)` resolves the
omitted subnet as 255.255.255.0; the fully resolved call therefore caches
dns = ip[3:=1] and programs gateway = ip[3:=1], subnet = 255.255.255.0 and
the supplied ip. -/
theorem beginStatic_chained_defaults (env : Env) (mac : Mac)
    (ip dns gateway : IPAddress) (s : EthernetState) :
    EthernetClass.beginStatic2 env mac ip s =
      EthernetClass.beginStatic3 env mac ip (ip.setOctet3 1) s ∧
    EthernetClass.beginStatic3 env mac ip dns s =
      EthernetClass.beginStatic4 env mac ip dns (ip.setOctet3 1) s ∧
    EthernetClass.beginStatic4 env mac ip dns gateway s =
      EthernetClass.beginStatic5 env mac ip dns gateway ⟨255, 255, 255, 0⟩ s ∧
    (env.initOk = true →
      (EthernetClass.beginStatic2 env mac ip s).state.dnsServerAddress =
        ip.setOctet3 1 ∧
      (EthernetClass.beginStatic2 env mac ip s).state.chip.gateway =
        ip.setOctet3 1 ∧
      (EthernetClass.beginStatic2 env mac ip s).state.chip.subnet =
        ⟨255, 255, 255, 0⟩ ∧
      (EthernetClass.beginStatic2 env mac ip s).state.chip.ip = ip) := by
  refine ⟨rfl, rfl, rfl, ?_⟩
  intro h
  simp [EthernetClass.beginStatic2, EthernetClass.beginStatic3,
    EthernetClass.beginStatic4, EthernetClass.beginStatic5, h]

/-- Witness for `beginStatic_chained_defaults` at the spec §8 scenario:
static address 192.168.1.50 resolves dns and gateway 192.168.1.1 and
subnet 255.255.255.0. -/
theorem beginStatic_chained_defaults_witness :
    (EthernetClass.beginStatic2 envRenew [1] ipSample st0).state.dnsServerAddress =
      ipSample.setOctet3 1 ∧
    (EthernetClass.beginStatic2 envRenew [1] ipSample st0).state.chip.gateway =
      ipSample.setOctet3 1 ∧
    (EthernetClass.beginStatic2 envRenew [1] ipSample st0).state.chip.subnet =
      ⟨255, 255, 255, 0⟩ :=
  ⟨((beginStatic_chained_defaults envRenew [1] ipSample ipSample ipSample st0).2.2.2 rfl).1,
   ((beginStatic_chained_defaults envRenew [1] ipSample ipSample ipSample st0).2.2.2 rfl).2.1,
   ((beginStatic_chained_defaults envRenew [1] ipSample ipSample ipSample st0).2.2.2 rfl).2.2.1⟩

/-- Claim C3: `setRetransmissionTimeout(x)` writes `min(x, 6553) * 10` to
the retransmission-time register; x = 0 stores 0, x = 7000 stores 65530,
and the stored value never exceeds 65530, so the 16-bit conversion at the
driver boundary never wraps. -/
theorem setRetransmissionTimeout_stores_clamped (ms : Nat) (s : EthernetState) :
    (EthernetClass.setRetransmissionTimeout ms s).state.chip.rtr =
      min ms 6553 * 10 ∧
    (EthernetClass.setRetransmissionTimeout ms s).trace =
      [Ev.beginTransaction, Ev.setRetransmissionTime (min ms 6553 * 10),
        Ev.endTransaction] ∧
    min ms 6553 * 10 ≤ 65530 ∧
    (EthernetClass.setRetransmissionTimeout 0 s).state.chip.rtr = 0 ∧
    (EthernetClass.setRetransmissionTimeout 7000 s).state.chip.rtr = 65530 := by
  refine ⟨?_, ?_, by omega, rfl, rfl⟩
  · simp only [EthernetClass.setRetransmissionTimeout]
    split_ifs <;> omega
  · simp [EthernetClass.setRetransmissionTimeout]
    split_ifs <;> omega

/-- Claim C5: `maintain()` with no negotiator returns `DHCP_CHECK_NONE`
at once, with an empty trace: zero chip-driver calls and zero bus
acquisitions. -/
theorem maintain_without_dhcp (env : Env) (s : EthernetState)
    (h : s.dhcp = none) :
    EthernetClass.maintain env s =
      { state := s, trace := [], ret := DHCP_CHECK_NONE } := by
  simp [EthernetClass.maintain, h]

/-- Witness for `maintain_without_dhcp`: a freshly constructed manager. -/
theorem maintain_without_dhcp_witness :
    EthernetClass.maintain envRenew st0 =
      { state := st0, trace := [], ret := DHCP_CHECK_NONE } :=
  maintain_without_dhcp envRenew st0 rfl

/-- Claim C4: with a negotiator present, `maintain()` returns the
lease-check code unchanged; on renewed/rebound it republishes the
negotiator's local/gateway/subnet addresses under a single bus
acquisition and refreshes the cached DNS address; on every other code it
makes no chip call beyond the lease check and leaves the state — the
cached DNS address included — untouched. -/
theorem maintain_with_dhcp (env : Env) (s : EthernetState) (i : Nat)
    (h : s.dhcp = some i) :
    (EthernetClass.maintain env s).ret = env.leaseRc ∧
    (env.leaseRc = DHCP_CHECK_RENEW_OK ∨ env.leaseRc = DHCP_CHECK_REBIND_OK →
      (EthernetClass.maintain env s).trace =
        [Ev.checkLease, Ev.beginTransaction, Ev.setIPAddress env.dhcpLocalIp,
          Ev.setGatewayIp env.dhcpGatewayIp, Ev.setSubnetMask env.dhcpSubnetMask,
          Ev.endTransaction] ∧
      (EthernetClass.maintain env s).state.chip.ip = env.dhcpLocalIp ∧
      (EthernetClass.maintain env s).state.chip.gateway = env.dhcpGatewayIp ∧
      (EthernetClass.maintain env s).state.chip.subnet = env.dhcpSubnetMask ∧
      (EthernetClass.maintain env s).state.dnsServerAddress =
        env.dhcpDnsServerIp) ∧
    (¬(env.leaseRc = DHCP_CHECK_RENEW_OK ∨ env.leaseRc = DHCP_CHECK_REBIND_OK) →
      (EthernetClass.maintain env s).trace = [Ev.checkLease] ∧
      (EthernetClass.maintain env s).state = s) := by
  by_cases hrc : env.leaseRc = DHCP_CHECK_RENEW_OK ∨
      env.leaseRc = DHCP_CHECK_REBIND_OK <;>
    simp [EthernetClass.maintain, h, hrc]

/-- Witness for `maintain_with_dhcp`: a renewed lease republishes the
address set and refreshes the cached DNS address 8.8.8.8. -/
theorem maintain_with_dhcp_witness :
    (EthernetClass.maintain envRenew stDhcp).ret = DHCP_CHECK_RENEW_OK ∧
    (EthernetClass.maintain envRenew stDhcp).state.dnsServerAddress =
      ⟨8, 8, 8, 8⟩ ∧
    (EthernetClass.maintain envRenew stDhcp).state.chip.ip = ⟨10, 0, 0, 5⟩ :=
  ⟨(maintain_with_dhcp envRenew stDhcp 0 rfl).1,
   ((maintain_with_dhcp envRenew stDhcp 0 rfl).2.1 (Or.inl rfl)).2.2.2.2,
   ((maintain_with_dhcp envRenew stDhcp 0 rfl).2.1 (Or.inl rfl)).2.1⟩

/-- Claim C6: if chip initialization fails, the DHCP bring-up returns 0
with no bus acquisition and no chip register write in its trace, and the
fully explicit static bring-up returns with its state unchanged and only
the failed `init` in its trace. -/
theorem bringup_init_failure_short_circuits (env : Env) (mac : Mac)
    (ip dns gateway subnet : IPAddress) (s : EthernetState)
    (h : env.initOk = false) :
    (EthernetClass.beginDHCP env mac s).ret = 0 ∧
    ((EthernetClass.beginDHCP env mac s).trace.all
      fun e => !e.isChipWrite && !e.isAcquire) = true ∧
    EthernetClass.beginStatic5 env mac ip dns gateway subnet s =
      { state := s, trace := [Ev.init false], ret := () } := by
  rcases hd : s.dhcp with _ | i <;>
    simp [EthernetClass.beginDHCP, EthernetClass.beginStatic5, h, hd,
      Ev.isChipWrite, Ev.isAcquire]

/-- Witness for `bringup_init_failure_short_circuits`: concrete failing
collaborators on a fresh manager. -/
theorem bringup_init_failure_short_circuits_witness :
    (EthernetClass.beginDHCP envInitFail [1] st0).ret = 0 ∧
    EthernetClass.beginStatic5 envInitFail [1] ipSample ipSample ipSample
        ⟨255, 255, 255, 0⟩ st0 =
      { state := st0, trace := [Ev.init false], ret := () } :=
  ⟨(bringup_init_failure_short_circuits envInitFail [1] ipSample ipSample
      ipSample ⟨255, 255, 255, 0⟩ st0 rfl).1,
   (bringup_init_failure_short_circuits envInitFail [1] ipSample ipSample
      ipSample ⟨255, 255, 255, 0⟩ st0 rfl).2.2⟩

/-- Claim C7: each of the ten address accessors and mutators emits a
trace that is exactly one `beginTransaction`, then chip-driver calls
only, then one closing `endTransaction`, and the bus depth returns to
zero, for every state and argument (each of these functions has a single
straight-line control path). -/
theorem accessors_single_transaction (s : EthernetState) (mac : Mac)
    (a : IPAddress) (ms n : Nat) :
    (isSingleTxnTrace (EthernetClass.MACAddress s).trace = true ∧
      busDepthOk 0 (EthernetClass.MACAddress s).trace = true) ∧
    (isSingleTxnTrace (EthernetClass.localIP s).trace = true ∧
      busDepthOk 0 (EthernetClass.localIP s).trace = true) ∧
    (isSingleTxnTrace (EthernetClass.subnetMask s).trace = true ∧
      busDepthOk 0 (EthernetClass.subnetMask s).trace = true) ∧
    (isSingleTxnTrace (EthernetClass.gatewayIP s).trace = true ∧
      busDepthOk 0 (EthernetClass.gatewayIP s).trace = true) ∧
    (isSingleTxnTrace (EthernetClass.setMACAddress mac s).trace = true ∧
      busDepthOk 0 (EthernetClass.setMACAddress mac s).trace = true) ∧
    (isSingleTxnTrace (EthernetClass.setLocalIP a s).trace = true ∧
      busDepthOk 0 (EthernetClass.setLocalIP a s).trace = true) ∧
    (isSingleTxnTrace (EthernetClass.setSubnetMask a s).trace = true ∧
      busDepthOk 0 (EthernetClass.setSubnetMask a s).trace = true) ∧
    (isSingleTxnTrace (EthernetClass.setGatewayIP a s).trace = true ∧
      busDepthOk 0 (EthernetClass.setGatewayIP a s).trace = true) ∧
    (isSingleTxnTrace (EthernetClass.setRetransmissionTimeout ms s).trace = true ∧
      busDepthOk 0 (EthernetClass.setRetransmissionTimeout ms s).trace = true) ∧
    (isSingleTxnTrace (EthernetClass.setRetransmissionCount n s).trace = true ∧
      busDepthOk 0 (EthernetClass.setRetransmissionCount n s).trace = true) :=
  ⟨⟨rfl, rfl⟩, ⟨rfl, rfl⟩, ⟨rfl, rfl⟩, ⟨rfl, rfl⟩, ⟨rfl, rfl⟩, ⟨rfl, rfl⟩,
    ⟨rfl, rfl⟩, ⟨rfl, rfl⟩, ⟨rfl, rfl⟩, ⟨rfl, rfl⟩⟩

/-- Claim C8: in every execution of the DHCP bring-up, the delegation to
`_dhcp->beginWithDHCP` happens with zero open bus acquisitions (the
transaction around the initial MAC / zero-IP writes is closed first, and
any publishing transaction opens only afterwards), the bus depth returns
to zero by the time the call returns, and the delegation is reached
exactly when chip initialization succeeded. -/
theorem beginDHCP_bus_released_at_delegation (env : Env) (mac : Mac)
    (s : EthernetState) :
    noBusHeldAtDhcp 0 (EthernetClass.beginDHCP env mac s).trace = true ∧
    busDepthOk 0 (EthernetClass.beginDHCP env mac s).trace = true ∧
    (Ev.beginWithDHCP ∈ (EthernetClass.beginDHCP env mac s).trace ↔
      env.initOk = true) := by
  rcases hd : s.dhcp with _ | i <;> cases hi : env.initOk <;>
    by_cases hr : env.dhcpBeginRet = 1 <;>
      simp [EthernetClass.beginDHCP, hd, hi, hr, noBusHeldAtDhcp, busDepthOk]

/-- After the DHCP bring-up the negotiator field holds the previous
instance if there was one and the freshly numbered instance otherwise. -/
theorem beginDHCP_dhcp_eq (env : Env) (mac : Mac) (s : EthernetState) :
    (EthernetClass.beginDHCP env mac s).state.dhcp =
      some (s.dhcp.getD s.nextDhcpId) := by
  rcases hd : s.dhcp with _ | i <;> cases hi : env.initOk <;>
    by_cases hr : env.dhcpBeginRet = 1 <;>
      simp [EthernetClass.beginDHCP, hd, hi, hr]

/-- Claim C9: the DHCP bring-up keeps an existing negotiator instance
untouched (its identity survives and no creation happens), creates the
negotiator exactly when none exists yet, and no other operation of the
manager ever destroys or replaces the instance — only the manager's own
destruction does. -/
theorem dhcp_negotiator_created_once (env : Env) (mac : Mac)
    (ip dns gateway subnet : IPAddress) (ms n : Nat) (s : EthernetState) :
    (EthernetClass.beginDHCP env mac s).state.dhcp =
      some (s.dhcp.getD s.nextDhcpId) ∧
    (Ev.dhcpCreate ∈ (EthernetClass.beginDHCP env mac s).trace ↔
      s.dhcp = none) ∧
    (EthernetClass.maintain env s).state.dhcp = s.dhcp ∧
    (EthernetClass.beginStatic5 env mac ip dns gateway subnet s).state.dhcp =
      s.dhcp ∧
    (EthernetClass.beginStatic2 env mac ip s).state.dhcp = s.dhcp ∧
    (EthernetClass.setMACAddress mac s).state.dhcp = s.dhcp ∧
    (EthernetClass.setLocalIP ip s).state.dhcp = s.dhcp ∧
    (EthernetClass.setSubnetMask subnet s).state.dhcp = s.dhcp ∧
    (EthernetClass.setGatewayIP gateway s).state.dhcp = s.dhcp ∧
    (EthernetClass.setRetransmissionTimeout ms s).state.dhcp = s.dhcp ∧
    (EthernetClass.setRetransmissionCount n s).state.dhcp = s.dhcp ∧
    (EthernetClass.MACAddress s).state.dhcp = s.dhcp ∧
    (EthernetClass.localIP s).state.dhcp = s.dhcp ∧
    (EthernetClass.subnetMask s).state.dhcp = s.dhcp ∧
    (EthernetClass.gatewayIP s).state.dhcp = s.dhcp := by
  refine ⟨beginDHCP_dhcp_eq env mac s, ?_, ?_, ?_, ?_, rfl, rfl, rfl, rfl,
    rfl, rfl, rfl, rfl, rfl, rfl⟩
  · rcases hd : s.dhcp with _ | i <;> cases hi : env.initOk <;>
      by_cases hr : env.dhcpBeginRet = 1 <;>
        simp [EthernetClass.beginDHCP, hd, hi, hr]
  · rcases hd : s.dhcp with _ | i <;>
      by_cases hrc : env.leaseRc = DHCP_CHECK_RENEW_OK ∨
          env.leaseRc = DHCP_CHECK_REBIND_OK <;>
        simp [EthernetClass.maintain, hd, hrc]
  · by_cases hi : env.initOk = false <;> simp [EthernetClass.beginStatic5, hi]
  · by_cases hi : env.initOk = false <;>
      simp [EthernetClass.beginStatic2, EthernetClass.beginStatic3,
        EthernetClass.beginStatic4, EthernetClass.beginStatic5, hi]

/-- Claim C10: after any DHCP bring-up call — a failing one included —
the negotiator exists, so a subsequent `maintain()` performs the lease
check and returns the negotiator's code rather than bailing out with the
no-op code untouched. -/
theorem maintain_after_beginDHCP_consults_negotiator (env env2 : Env)
    (mac : Mac) (s : EthernetState) :
    (EthernetClass.beginDHCP env mac s).state.dhcp.isSome = true ∧
    Ev.checkLease ∈
      (EthernetClass.maintain env2
        (EthernetClass.beginDHCP env mac s).state).trace ∧
    (EthernetClass.maintain env2
        (EthernetClass.beginDHCP env mac s).state).ret = env2.leaseRc := by
  have h := beginDHCP_dhcp_eq env mac s
  refine ⟨by simp [h], ?_, ?_⟩ <;>
    by_cases hrc : env2.leaseRc = DHCP_CHECK_RENEW_OK ∨
        env2.leaseRc = DHCP_CHECK_REBIND_OK <;>
      simp [EthernetClass.maintain, h, hrc]
